import Mathlib

/-!
Shallow embedding of the zmysql data-mapping layer (Go) and proofs about it.

The embedding models the row-materialization engine of the repository:
the NULL-safe scan adapter (`createNullScanner` / `setFieldFromNullScanner`,
src/mysql_select.go), the slice materializer (`scanRows`), the one-row
materializer (`First`), the multi-result-set dispatcher (`FindMultipleProc`),
the generic scalar/array/map retrieval (`firstColAny`, `findArray`, `findMap`
from the smysql client copy), the raw JSON projection (`ExecByte`) and the
write path (`Exec`).

The SQL driver is modelled as data: a result cursor is a column list, a list
of rows (each row a list of driver cells), and an optional iteration error.
Driver cells are NULL, 64-bit integers, or strings (the value kinds the
go-sql-driver surfaces for the code paths under study; floating-point driver
cells are not needed by any property proved here, though float destination
*fields* are fully modelled).  Machine integers are modelled as `Int`/`Nat`
with explicit two's-complement truncation where Go's `reflect.Value.SetInt`
/ `SetUint` truncates to the field width.
-/

namespace Zmysql

/-- A driver cell value as surfaced by the SQL driver for one column of one
row: SQL NULL, a 64-bit integer, or a textual value. -/
inductive SqlCell where
  | null : SqlCell
  | int (i : Int) : SqlCell
  | str (s : String) : SqlCell
deriving DecidableEq, Repr

/-- The `reflect.Kind` of a destination struct field, restricted to the kinds
`createNullScanner` switches on; `kOther` stands for every other kind
(custom types, handled by the default branch). -/
inductive Kind where
  | kString
  | kInt | kInt8 | kInt16 | kInt32 | kInt64
  | kUint | kUint8 | kUint16 | kUint32 | kUint64
  | kFloat32 | kFloat64
  | kBool
  | kOther
deriving DecidableEq, Repr

/-- Signed-integer kinds (the `case reflect.Int, ...` arm). -/
def Kind.isSigned : Kind → Bool
  | .kInt | .kInt8 | .kInt16 | .kInt32 | .kInt64 => true
  | _ => false

/-- Unsigned-integer kinds (the `case reflect.Uint, ...` arm). -/
def Kind.isUnsigned : Kind → Bool
  | .kUint | .kUint8 | .kUint16 | .kUint32 | .kUint64 => true
  | _ => false

/-- Float kinds (the `case reflect.Float32, reflect.Float64` arm). -/
def Kind.isFloat : Kind → Bool
  | .kFloat32 | .kFloat64 => true
  | _ => false

/-- Bit width of an integer kind (Go `int`/`uint` are 64-bit on the targeted
platforms). -/
def Kind.width : Kind → Nat
  | .kInt8 | .kUint8 => 8
  | .kInt16 | .kUint16 => 16
  | .kInt32 | .kUint32 => 32
  | _ => 64

/-- A Go value stored in a destination struct field.  Float payloads are
rationals: the engine only moves float values, never computes with them. -/
inductive GoValue where
  | vString (s : String)
  | vInt (i : Int)
  | vUint (n : Nat)
  | vFloat (q : Rat)
  | vBool (b : Bool)
  | vOther (c : SqlCell)
deriving DecidableEq, Repr

/-- Two's-complement truncation of `reflect.Value.SetInt` into a signed field
of width `w`. -/
def truncSigned (w : Nat) (i : Int) : Int :=
  (i + 2 ^ (w - 1)) % 2 ^ w - 2 ^ (w - 1)

/-- Truncation of `reflect.Value.SetUint` into an unsigned field of width `w`. -/
def truncUnsigned (w : Nat) (n : Nat) : Nat :=
  n % 2 ^ w

/-- The zero `GoValue` of a field kind (`reflect.New(fieldType).Elem()`). -/
def Kind.zero : Kind → GoValue
  | .kString => .vString ""
  | .kInt | .kInt8 | .kInt16 | .kInt32 | .kInt64 => .vInt 0
  | .kUint | .kUint8 | .kUint16 | .kUint32 | .kUint64 => .vUint 0
  | .kFloat32 | .kFloat64 => .vFloat 0
  | .kBool => .vBool false
  | .kOther => .vOther .null

/-- `sql.NullString`. -/
structure NullString where
  str : String
  valid : Bool
deriving DecidableEq, Repr

/-- `sql.NullInt64`. -/
structure NullInt64 where
  int64 : Int
  valid : Bool
deriving DecidableEq, Repr

/-- `sql.NullFloat64`. -/
structure NullFloat64 where
  float64 : Rat
  valid : Bool
deriving DecidableEq, Repr

/-- `sql.NullBool`. -/
structure NullBool where
  bool : Bool
  valid : Bool
deriving DecidableEq, Repr

/-- A scan target after `rows.Scan` has filled it: one of the four nullable
wrappers, or the raw driver value for custom (`kOther`) destination types. -/
inductive Scanner where
  | nullString (s : NullString)
  | nullInt64 (s : NullInt64)
  | nullFloat64 (s : NullFloat64)
  | nullBool (s : NullBool)
  | other (c : SqlCell)
deriving DecidableEq, Repr

/-- The kind of scan target `createNullScanner` allocates for a column. -/
inductive ScanProto where
  | pString
  | pInt64
  | pFloat64
  | pBool
  | pOther
deriving DecidableEq, Repr

/-- `createNullScanner` (src/mysql_select.go lines 11-27): chooses the
nullable scan target for a destination field kind. -/
def createNullScanner : Kind → ScanProto
  | .kString => .pString
  | .kInt | .kInt8 | .kInt16 | .kInt32 | .kInt64 => .pInt64
  | .kUint | .kUint8 | .kUint16 | .kUint32 | .kUint64 => .pInt64
  | .kFloat32 | .kFloat64 => .pFloat64
  | .kBool => .pBool
  | .kOther => .pOther

/-- Base-10 digit run value; `none` when the list is empty or holds a
non-digit. -/
def digitsVal (cs : List Char) : Option Nat :=
  if cs.isEmpty then none
  else if cs.all Char.isDigit then
    some (cs.foldl (fun a c => a * 10 + (c.toNat - '0'.toNat)) 0)
  else none

/-- Strict base-10 integer parse, as `strconv.ParseInt(s, 10, 64)` inside
`database/sql`'s string-to-int64 conversion: optional sign, then digits only
(64-bit range checking is not exercised by the properties proved here). -/
def parseInt10 (s : String) : Option Int :=
  match s.data with
  | '-' :: cs => (digitsVal cs).map (fun n => -(n : Int))
  | '+' :: cs => (digitsVal cs).map (fun n => (n : Int))
  | cs => (digitsVal cs).map (fun n => (n : Int))

/-- Leading-integer scan of `fmt.Sscanf(s, "%d", &val)`: optional sign then a
non-empty leading digit run; trailing characters are ignored (Sscanf stops
after the verb).  `none` models a non-nil scan error. -/
def sscanfInt (s : String) : Option Int :=
  let core : List Char → Option Nat := fun cs =>
    match digitsVal (cs.takeWhile Char.isDigit) with
    | some n => some n
    | none => none
  match s.data with
  | '-' :: cs => (core cs).map (fun n => -(n : Int))
  | '+' :: cs => (core cs).map (fun n => (n : Int))
  | cs => (core cs).map (fun n => (n : Int))

/-- `sql.NullString.Scan` via `convertAssign`: NULL invalidates, text is taken
as-is, int64 is formatted in base 10.  Total on the modelled cell domain. -/
def NullString.scanCell : SqlCell → NullString
  | .null => { str := "", valid := false }
  | .str s => { str := s, valid := true }
  | .int i => { str := toString i, valid := true }

/-- `sql.NullInt64.Scan` via `convertAssign`: NULL invalidates, int64 is taken
as-is, text is parsed in base 10 and a parse failure is a scan error. -/
def NullInt64.scanCell : SqlCell → Except String NullInt64
  | .null => .ok { int64 := 0, valid := false }
  | .int i => .ok { int64 := i, valid := true }
  | .str s =>
    match parseInt10 s with
    | some i => .ok { int64 := i, valid := true }
    | none => .error ("converting driver.Value type string (\"" ++ s ++ "\") to a int64")

/-- `sql.NullFloat64.Scan` via `convertAssign`: NULL invalidates, int64 is
converted exactly; textual float parsing is outside the modelled cell
behaviours (no property proved here feeds text to a float target). -/
def NullFloat64.scanCell : SqlCell → Except String NullFloat64
  | .null => .ok { float64 := 0, valid := false }
  | .int i => .ok { float64 := (i : Rat), valid := true }
  | .str s => .error ("converting driver.Value type string (\"" ++ s ++ "\") to a float64")

/-- `sql.NullBool.Scan` via `driver.Bool.ConvertValue`: NULL invalidates,
integers 0/1 convert, common boolean spellings convert, all else errors. -/
def NullBool.scanCell : SqlCell → Except String NullBool
  | .null => .ok { bool := false, valid := false }
  | .int 0 => .ok { bool := false, valid := true }
  | .int 1 => .ok { bool := true, valid := true }
  | .int i => .error ("sql/driver: couldn't convert " ++ toString i ++ " into type bool")
  | .str "true" => .ok { bool := true, valid := true }
  | .str "1" => .ok { bool := true, valid := true }
  | .str "false" => .ok { bool := false, valid := true }
  | .str "0" => .ok { bool := false, valid := true }
  | .str s => .error ("sql/driver: couldn't convert \"" ++ s ++ "\" into type bool")

/-- `rows.Scan` filling one scan target of the given proto from one driver
cell. -/
def scanProtoCell : ScanProto → SqlCell → Except String Scanner
  | .pString, c => .ok (.nullString (NullString.scanCell c))
  | .pInt64, c => (NullInt64.scanCell c).map .nullInt64
  | .pFloat64, c => (NullFloat64.scanCell c).map .nullFloat64
  | .pBool, c => (NullBool.scanCell c).map .nullBool
  | .pOther, c => .ok (.other c)

/-- `setFieldFromNullScanner` (src/mysql_select.go lines 30-87): converts a
filled scan target back into the destination field.  Takes the field's
current value because the `*sql.NullInt64` NULL branch leaves a non-integer
field untouched (its inner switch has no default arm). -/
def setFieldFromNullScanner (field : GoValue) (scanner : Scanner) (fieldType : Kind) :
    Except String GoValue :=
  match scanner with
  | .nullString s =>
    if s.valid then
      if fieldType ≠ .kString then
        .error ("cannot convert string to " ++ toString (repr fieldType))
      else
        .ok (.vString s.str)
    else
      .ok (.vString "")
  | .nullInt64 s =>
    if s.valid then
      if fieldType.isSigned then
        .ok (.vInt (truncSigned fieldType.width s.int64))
      else if fieldType.isUnsigned then
        if s.int64 < 0 then
          .error "cannot convert negative value to unsigned type"
        else
          .ok (.vUint (truncUnsigned fieldType.width s.int64.toNat))
      else
        .error ("cannot convert int64 to " ++ toString (repr fieldType))
    else
      if fieldType.isSigned then
        .ok (.vInt 0)
      else if fieldType.isUnsigned then
        .ok (.vUint 0)
      else
        .ok field
  | .nullFloat64 s =>
    if s.valid then
      if ¬ fieldType.isFloat then
        .error ("cannot convert float64 to " ++ toString (repr fieldType))
      else
        .ok (.vFloat s.float64)
    else
      .ok (.vFloat 0)
  | .nullBool s =>
    if s.valid then
      if fieldType ≠ .kBool then
        .error ("cannot convert bool to " ++ toString (repr fieldType))
      else
        .ok (.vBool s.bool)
    else
      .ok (.vBool false)
  | .other c =>
    .ok (.vOther c)

/-- The adapter pipeline for a NULL cell: allocate the scanner for the field
kind, scan SQL NULL into it, and set the field from it. -/
def nullCellThroughAdapter (field : GoValue) (fieldType : Kind) : Except String GoValue := do
  let sc ← scanProtoCell (createNullScanner fieldType) .null
  setFieldFromNullScanner field sc fieldType

/-- A result cursor as the engine observes it: the outcome of
`rows.Columns()`, the rows of the current result set, and the value of
`rows.Err()` after iteration (`none` = nil). -/
structure Rows where
  columnsRes : Except String (List String)
  data : List (List SqlCell)
  iterErr : Option String
deriving Repr

/-- A destination struct type: the field kinds in declaration order.  The
column-tag-to-field-ordinal mapping of `getFieldsMapping` is passed
separately (it is data derived from the struct tags). -/
abbrev StructTy := List Kind

/-- A destination struct value: one `GoValue` per field. -/
abbrev StructVal := List GoValue

/-- `reflect.New(sliceElemType).Elem()`: the zero value of a struct type. -/
def zeroStruct (ty : StructTy) : StructVal :=
  ty.map Kind.zero

/-- The scan-target array `scanDest` built per column: the field's scanner
when the column is mapped, a discarding `sql.NullString` otherwise
(src/mysql_select.go lines 101-108). -/
def buildScanProtos (ty : StructTy) (mapping : String → Option Nat)
    (columns : List String) : List ScanProto :=
  columns.map (fun col =>
    match mapping col with
    | some fi => createNullScanner (ty.getD fi .kOther)
    | none => .pString)

/-- `rows.Scan(scanDest...)`: fill every scan target of the row; a count
mismatch or any cell conversion failure is a scan error. -/
def scanRowCells (protos : List ScanProto) (row : List SqlCell) :
    Except String (List Scanner) :=
  if row.length ≠ protos.length then
    .error ("sql: expected " ++ toString protos.length ++
      " destination arguments in Scan, not " ++ toString row.length)
  else
    (protos.zip row).mapM (fun pc => scanProtoCell pc.1 pc.2)

/-- The per-row field-setting loop of `scanRows` (lines 116-124): walk the
columns, and for each mapped column set the corresponding field of the fresh
item from its scanner. -/
def setMappedFields (ty : StructTy) (mapping : String → Option Nat) :
    List (String × Scanner) → StructVal → Except String StructVal
  | [], item => .ok item
  | (col, sc) :: rest, item =>
    match mapping col with
    | none => setMappedFields ty mapping rest item
    | some fi =>
      match setFieldFromNullScanner (item.getD fi (Kind.zero .kOther)) sc (ty.getD fi .kOther) with
      | .error e => .error ("failed to set field " ++ col ++ ": " ++ e)
      | .ok v => setMappedFields ty mapping rest (item.set fi v)

/-- One iteration of the `rows.Next()` loop of `scanRows`: scan the row and
build a freshly allocated element. -/
def scanOneRow (ty : StructTy) (mapping : String → Option Nat)
    (columns : List String) (row : List SqlCell) : Except String StructVal := do
  let scanners ←
    match scanRowCells (buildScanProtos ty mapping columns) row with
    | .error e => .error ("failed to scan row: " ++ e)
    | .ok l => .ok l
  setMappedFields ty mapping (columns.zip scanners) (zeroStruct ty)

/-- The row loop of `scanRows`: accumulate elements into a local sequence,
aborting on the first error. -/
def scanRowsLoop (ty : StructTy) (mapping : String → Option Nat)
    (columns : List String) (acc : List StructVal) :
    List (List SqlCell) → Except String (List StructVal)
  | [] => .ok acc
  | row :: rest =>
    match scanOneRow ty mapping columns row with
    | .error e => .error e
    | .ok item => scanRowsLoop ty mapping columns (acc ++ [item]) rest

/-- `scanRows` (src/mysql_select.go lines 90-134) as a state transformer on
the caller's destination slice: returns the call's outcome together with the
destination contents after the call.  The destination is assigned once, at
the end, only when every step succeeded. -/
def scanRows (rows : Rows) (ty : StructTy) (mapping : String → Option Nat)
    (dest : List StructVal) : Except String Unit × List StructVal :=
  match rows.columnsRes with
  | .error e => (.error ("failed to get columns: " ++ e), dest)
  | .ok columns =>
    match scanRowsLoop ty mapping columns [] rows.data with
    | .error e => (.error e, dest)
    | .ok results =>
      match rows.iterErr with
      | some e => (.error ("rows iteration error: " ++ e), dest)
      | none => (.ok (), results)

/-- The accumulated sequence `scanRows` would produce on success. -/
def scanRowsResults (rows : Rows) (ty : StructTy) (mapping : String → Option Nat) :
    Except String (List StructVal) :=
  match rows.columnsRes with
  | .error e => .error e
  | .ok columns => scanRowsLoop ty mapping columns [] rows.data

/-- The field-setting loop of `First` (src/mysql_select.go lines 231-239):
unlike `scanRows`, it writes fields directly onto the caller-owned struct,
so an error mid-loop leaves the fields set so far in place. -/
def firstSetLoop (ty : StructTy) (mapping : String → Option Nat) :
    List (String × Scanner) → StructVal → Except String Unit × StructVal
  | [], dest => (.ok (), dest)
  | (col, sc) :: rest, dest =>
    match mapping col with
    | none => firstSetLoop ty mapping rest dest
    | some fi =>
      match setFieldFromNullScanner (dest.getD fi (Kind.zero .kOther)) sc (ty.getD fi .kOther) with
      | .error e => (.error ("failed to set field " ++ col ++ ": " ++ e), dest)
      | .ok v => firstSetLoop ty mapping rest (dest.set fi v)

/-- `First` (src/mysql_select.go lines 188-244) from the point where the
cursor exists: returns `(found, error)` together with the caller's struct
after the call.  With zero rows it returns `found = false` and never touches
the struct; note that `First` does not consult `rows.Err()`. -/
def First (rows : Rows) (ty : StructTy) (mapping : String → Option Nat)
    (dest : StructVal) : Except String Bool × StructVal :=
  match rows.columnsRes with
  | .error e => (.error ("failed to get columns: " ++ e), dest)
  | .ok columns =>
    match rows.data with
    | [] => (.ok false, dest)
    | row :: _ =>
      match scanRowCells (buildScanProtos ty mapping columns) row with
      | .error e => (.error ("failed to scan row: " ++ e), dest)
      | .ok scanners =>
        match firstSetLoop ty mapping (columns.zip scanners) dest with
        | (.error e, dest') => (.error e, dest')
        | (.ok _, dest') => (.ok true, dest')

/-- The closed set of element types the generic retrieval functions support
(`T int64 | string` in the Go type parameter lists). -/
inductive ScalarT where
  | tInt64
  | tString
deriving DecidableEq, Repr

/-- A value of one of the two generic element types. -/
inductive TVal where
  | ofInt (i : Int)
  | ofStr (s : String)
deriving DecidableEq, Repr

/-- `var zero T`: the zero value of the element type. -/
def ScalarT.zeroVal : ScalarT → TVal
  | .tInt64 => .ofInt 0
  | .tString => .ofStr ""

/-- The scan target the type switch allocates for the element type. -/
def ScalarT.proto : ScalarT → ScanProto
  | .tInt64 => .pInt64
  | .tString => .pString

/-- `firstColAny` (src/unnamed/part_005 lines 814-874) from the point where
the cursor exists: single-column generic scalar retrieval returning
`(value, found)`. -/
def firstColAny (t : ScalarT) (rows : Rows) : Except String (TVal × Bool) :=
  match rows.columnsRes with
  | .error e => .error ("failed to get columns: " ++ e)
  | .ok columns =>
    if columns.length ≠ 1 then
      .error ("expected a single column result, but got " ++
        toString columns.length ++ " columns")
    else
      match rows.data with
      | [] => .ok (t.zeroVal, false)
      | row :: _ =>
        match row with
        | [cell] =>
          match t with
          | .tInt64 =>
            match NullInt64.scanCell cell with
            | .error e => .error ("failed to scan column: " ++ e)
            | .ok s =>
              if s.valid then .ok (.ofInt s.int64, true) else .ok (.ofInt 0, true)
          | .tString =>
            let s := NullString.scanCell cell
            if s.valid then .ok (.ofStr s.str, true) else .ok (.ofStr "", true)
        | _ =>
          .error ("failed to scan column: sql: expected 1 destination arguments in Scan, not " ++
            toString row.length)

/-- The scan-target row `findArray` rebuilds per row: the element-type target
at the requested field index, a discarding `sql.NullString` everywhere else. -/
def findArrayProtos (t : ScalarT) (n : Nat) (fieldIndex : Nat) : List ScanProto :=
  (List.range n).map (fun i => if i = fieldIndex then t.proto else .pString)

/-- The per-row accumulator update of `findArray` (lines 1001-1015): a valid
value of the named column is appended, a NULL is silently dropped (the
catch-all arm is unreachable: the scanner at the field index was created
with the element type's target). -/
def findArrayAppend (t : ScalarT) (sc : Scanner) (acc : List TVal) : List TVal :=
  match t, sc with
  | .tInt64, .nullInt64 s => if s.valid then acc ++ [.ofInt s.int64] else acc
  | .tString, .nullString s => if s.valid then acc ++ [.ofStr s.str] else acc
  | _, _ => acc

/-- The row loop of `findArray` (lines 981-1016): valid values of the named
column are appended, NULL values are silently dropped. -/
def findArrayLoop (t : ScalarT) (protos : List ScanProto) (fieldIndex : Nat)
    (acc : List TVal) : List (List SqlCell) → Except String (List TVal)
  | [] => .ok acc
  | row :: rest =>
    match scanRowCells protos row with
    | .error e => .error ("failed to scan row: " ++ e)
    | .ok scanners =>
      findArrayLoop t protos fieldIndex
        (findArrayAppend t (scanners.getD fieldIndex (.nullString { str := "", valid := false })) acc)
        rest

/-- `findArray` (src/unnamed/part_005 lines 945-1027) from the point where
the cursor exists.  `none` models the Go `nil` slice (the explicit no-data
marker); `some l` is a non-empty accumulated sequence. -/
def findArray (t : ScalarT) (fieldName : String) (rows : Rows) :
    Except String (Option (List TVal)) :=
  match rows.columnsRes with
  | .error e => .error ("failed to get columns: " ++ e)
  | .ok columns =>
    match columns.findIdx? (· == fieldName) with
    | none => .error ("field '" ++ fieldName ++ "' not found in query results")
    | some fieldIndex =>
      match findArrayLoop t (findArrayProtos t columns.length fieldIndex) fieldIndex
          [] rows.data with
      | .error e => .error e
      | .ok results =>
        match rows.iterErr with
        | some e => .error ("rows iteration error: " ++ e)
        | none => if results = [] then .ok none else .ok (some results)

/-- The index the `findMap` column loop leaves in `keyIndex`/`valueIndex`:
the loop assigns without breaking, so the LAST matching column wins (unlike
`findArray`, which breaks at the first match). -/
def lastIdxOf (name : String) (cols : List String) : Option Nat :=
  (cols.enum.filterMap (fun p => if p.2 = name then some p.1 else none)).getLast?

/-- Go map insertion `result[key] = value` on an association-list model. -/
def mapUpsert (m : List (TVal × TVal)) (k v : TVal) : List (TVal × TVal) :=
  if m.any (fun p => p.1 = k) then
    m.map (fun p => if p.1 = k then (k, v) else p)
  else
    m ++ [(k, v)]

/-- The key extraction of the `findMap` row loop (lines 1224-1259) in basic
(non-struct) mode, where the key scanner is always a `sql.NullString`:
returns `none` when the row must be skipped (`keyValid` stayed false), and
otherwise the key value — which stays the ZERO value of `K` when the
`fmt.Sscanf` textual parse fails, because `keyValid` was already set. -/
def findMapKey (kT : ScalarT) (sc : Scanner) : Option TVal :=
  match sc with
  | .nullString s =>
    if s.valid then
      some (match kT with
        | .tString => .ofStr s.str
        | .tInt64 =>
          match sscanfInt s.str with
          | some v => .ofInt v
          | none => .ofInt 0)
    else
      none
  | _ => none

/-- The value construction of the `findMap` row loop (lines 1276-1295) in
basic mode: a valid `sql.NullString` is coerced to `V` (a failed `Sscanf`
leaves the zero value), NULL inserts the zero value of `V`. -/
def findMapValue (vT : ScalarT) (sc : Scanner) : TVal :=
  match sc with
  | .nullString s =>
    if s.valid then
      match vT with
      | .tString => .ofStr s.str
      | .tInt64 =>
        match sscanfInt s.str with
        | some v => .ofInt v
        | none => .ofInt 0
    else
      vT.zeroVal
  | _ => vT.zeroVal

/-- The row loop of `findMap` in basic mode.  `valueIndex = none` models the
`valueField == ""` configuration, where the Go code indexes `scanDest[-1]`
and panics. -/
def findMapLoop (kT vT : ScalarT) (protos : List ScanProto)
    (keyIndex : Nat) (valueIndex : Option Nat) (acc : List (TVal × TVal)) :
    List (List SqlCell) → Except String (List (TVal × TVal))
  | [] => .ok acc
  | row :: rest =>
    match scanRowCells protos row with
    | .error e => .error ("failed to scan row: " ++ e)
    | .ok scanners =>
      match findMapKey kT (scanners.getD keyIndex (.nullString { str := "", valid := false })) with
      | none => findMapLoop kT vT protos keyIndex valueIndex acc rest
      | some key =>
        match valueIndex with
        | none => .error "runtime error: index out of range [-1]"
        | some vi =>
          let value := findMapValue vT (scanners.getD vi (.nullString { str := "", valid := false }))
          findMapLoop kT vT protos keyIndex valueIndex (mapUpsert acc key value) rest

/-- `findMap` (src/unnamed/part_005 lines 1143-1309) from the point where
the cursor exists, specialized to a basic (non-struct) value type, the mode
the claim under study exercises; every scan target is a `sql.NullString`
there.  `none` models the Go `nil` map. -/
def findMapBasic (kT vT : ScalarT) (keyField valueField : String) (rows : Rows) :
    Except String (Option (List (TVal × TVal))) :=
  if keyField = "" then
    .error "keyField cannot be empty"
  else
    match rows.columnsRes with
    | .error e => .error ("failed to get columns: " ++ e)
    | .ok columns =>
      match lastIdxOf keyField columns with
      | none => .error ("key field '" ++ keyField ++ "' not found in query results")
      | some keyIndex =>
        let valueIndex := if valueField = "" then none else lastIdxOf valueField columns
        if valueField ≠ "" ∧ valueIndex = none then
          .error ("value field '" ++ valueField ++ "' not found in query results")
        else
          match findMapLoop kT vT (List.replicate columns.length .pString)
              keyIndex valueIndex [] rows.data with
          | .error e => .error e
          | .ok result =>
            match rows.iterErr with
            | some e => .error ("rows iteration error: " ++ e)
            | none => if result = [] then .ok none else .ok (some result)

/-- One destination of `FindMultipleProc`: a pointer to a slice of structs or
to a single struct, carrying its type's column mapping and its current
caller-visible contents. -/
inductive Dest where
  | slice (ty : StructTy) (mapping : String → Option Nat) (vals : List StructVal)
  | single (ty : StructTy) (mapping : String → Option Nat) (val : StructVal)

/-- The body of one `FindMultipleProc` loop iteration (lines 441-488):
route the current result set into destination `idx`.  The slice arm calls
`scanRows` (wrapping its error with the result-set index); the single-struct
arm is the inline one-row path, which fills a fresh `newItem` and assigns it
atomically, leaving the destination untouched when the set has no row. -/
def processResultSet (idx : Nat) (d : Dest) (cur : Rows) : Except String Dest :=
  match d with
  | .slice ty mapping vals =>
    match scanRows cur ty mapping vals with
    | (.error e, _) => .error ("failed to scan result set " ++ toString idx ++ ": " ++ e)
    | (.ok _, vals') => .ok (.slice ty mapping vals')
  | .single ty mapping val =>
    match cur.columnsRes with
    | .error e => .error ("failed to get columns: " ++ e)
    | .ok columns =>
      match cur.data with
      | [] => .ok (.single ty mapping val)
      | row :: _ =>
        match scanRowCells (buildScanProtos ty mapping columns) row with
        | .error e => .error ("failed to scan row: " ++ e)
        | .ok scanners =>
          match setMappedFields ty mapping (columns.zip scanners) (zeroStruct ty) with
          | .error e => .error e
          | .ok item => .ok (.single ty mapping item)

/-- The main loop of `FindMultipleProc` (lines 426-493): `N` is the original
destination count (used by the too-many error message), `cur` the current
result set, `rest` the result sets `rows.NextResultSet()` will still yield.
Returned alongside the outcome are the destination contents after the call
(Go mutates destinations in place as it goes). -/
def fmpGo (N : Nat) (idx : Nat) :
    List Dest → Rows → List Rows → Except String Unit × List Dest
  | [], _, _ => (.error ("too many result sets, expected " ++ toString N), [])
  | d :: ds, cur, rest =>
    match processResultSet idx d cur with
    | .error e => (.error e, d :: ds)
    | .ok d' =>
      match rest with
      | [] => (.ok (), d' :: ds)
      | r :: rs =>
        match fmpGo N (idx + 1) ds r rs with
        | (res, ds') => (res, d' :: ds')

/-- `FindMultipleProc` (src/mysql_select.go lines 404-496) from the point
where the cursor exists, taking the result sets the stored procedure yields.
A SQL `CALL` always yields at least one result set; the empty-sets case is
modelled as a no-op for totality. -/
def FindMultipleProc (dests : List Dest) (sets : List Rows) :
    Except String Unit × List Dest :=
  match dests with
  | [] => (.error "dest cannot be empty", [])
  | _ =>
    match sets with
    | [] => (.ok (), dests)
    | s :: ss => fmpGo dests.length 0 dests s ss

/-- A JSON document, as `encoding/json` produces it from the engine's
dynamically-typed row representation. -/
inductive Json where
  | null
  | num (i : Int)
  | str (s : String)
  | obj (fields : List (String × Json))
  | arr (xs : List Json)

/-- A driver cell as `json.Marshal` renders the `any`-typed scan result. -/
def SqlCell.toJson : SqlCell → Json
  | .null => .null
  | .int i => .num i
  | .str s => .str s

/-- Go map insertion for the `rowMap[col] = rowData[i]` loop. -/
def jsonMapUpsert (m : List (String × Json)) (k : String) (v : Json) :
    List (String × Json) :=
  if m.any (fun p => p.1 = k) then
    m.map (fun p => if p.1 = k then (k, v) else p)
  else
    m ++ [(k, v)]

/-- Insertion into a key-sorted pair list (`json.Marshal` emits map keys in
sorted order). -/
def insertPairSorted (p : String × Json) : List (String × Json) → List (String × Json)
  | [] => [p]
  | q :: qs => if p.1 ≤ q.1 then p :: q :: qs else q :: insertPairSorted p qs

/-- Key-sort of a pair list. -/
def sortPairs (m : List (String × Json)) : List (String × Json) :=
  m.foldr insertPairSorted []

/-- One row rendered as the JSON object `json.Marshal(rowMap)` produces:
columns zipped with the row's cells, later duplicate columns overwriting
earlier ones in the Go map, keys emitted sorted. -/
def rowToJson (columns : List String) (row : List SqlCell) : Json :=
  .obj (sortPairs ((columns.zip row).foldl
    (fun m p => jsonMapUpsert m p.1 p.2.toJson) []))

/-- `IS_LIST_TYPE` (src/unnamed/part_005 lines 18-23). -/
inductive IS_LIST_TYPE where
  | HAS_ONE
  | HAS_LIST
deriving DecidableEq, Repr

/-- The row loop of `ExecByte` (lines 59-80): `resultData` starts as a nil
slice (`none`) and becomes a non-nil slice on the first append. -/
def execByteLoop (columns : List String) (acc : Option (List Json)) :
    List (List SqlCell) → Except String (Option (List Json))
  | [] => .ok acc
  | row :: rest =>
    if row.length ≠ columns.length then
      .error ("failed to scan row: sql: expected " ++ toString columns.length ++
        " destination arguments in Scan, not " ++ toString row.length)
    else
      execByteLoop columns (some (acc.getD [] ++ [rowToJson columns row])) rest

/-- `json.Marshal(resultData)` for the accumulated `[]map[string]any`: a nil
slice marshals to the JSON `null` literal, a non-nil slice to an array. -/
def marshalRows : Option (List Json) → Json
  | none => .null
  | some l => .arr l

/-- `ExecByte` (src/mysql_exec.go lines 35-103) from the point where the
cursor exists, producing the JSON document whose serialization the call
returns. -/
def ExecByte (rows : Rows) (isList : IS_LIST_TYPE) : Except String Json :=
  match rows.columnsRes with
  | .error e => .error ("failed to get columns: " ++ e)
  | .ok columns =>
    match execByteLoop columns none rows.data with
    | .error e => .error e
    | .ok resultData =>
      match rows.iterErr with
      | some e => .error ("rows iteration error: " ++ e)
      | none =>
        match isList, resultData with
        | .HAS_ONE, some (first :: _) => .ok first
        | _, _ => .ok (marshalRows resultData)

/-- The outcome of `stmt.Exec`: a `sql.Result` whose `RowsAffected()` call
may itself fail. -/
structure SqlResult where
  rowsAffectedRes : Except String Int

/-- `Exec` (src/mysql_exec.go lines 13-32): `prep` is the outcome of
`DB.Prepare`, `run` the outcome of `stmt.Exec`.  Returns whether the
affected-row count is positive. -/
def Exec (prep : Except String Unit) (run : Except String SqlResult) :
    Except String Bool :=
  match prep with
  | .error e => .error ("failed to prepare query: " ++ e)
  | .ok _ =>
    match run with
    | .error e => .error ("failed to execute query: " ++ e)
    | .ok result =>
      match result.rowsAffectedRes with
      | .error e => .error ("failed to get affected rows: " ++ e)
      | .ok rowsAffected => .ok (decide (rowsAffected > 0))

/-- Processing a result set into a destination succeeds (stated at loop
index 0; the index only affects error text). -/
def processOk (d : Dest) (s : Rows) : Prop :=
  ∃ d', processResultSet 0 d s = .ok d'

/-- A trivial single-struct destination, used for concrete instantiations. -/
def trivialDest : Dest :=
  .single [] (fun _ => none) []

/-- A result set with no columns and no rows. -/
def emptySet : Rows :=
  { columnsRes := .ok [], data := [], iterErr := none }

/-- The scanner `rows.Scan` produces for a cell when it succeeds (and a
placeholder when it would error; only used under a success hypothesis). -/
def scanForce (p : ScanProto) (c : SqlCell) : Scanner :=
  match scanProtoCell p c with
  | .ok sc => sc
  | .error _ => .other .null

/-- Whether `rows.Scan` succeeds for a cell scanned into the element type's
target. -/
def cellScanOk (t : ScalarT) (c : SqlCell) : Bool :=
  match scanProtoCell t.proto c with
  | .ok _ => true
  | .error _ => false

/-- The contribution of one row's named column to the `findArray` output:
`none` for SQL NULL (the row is dropped), otherwise the element value the
scanner holds. -/
def arrayCellVal : ScalarT → SqlCell → Option TVal
  | _, .null => none
  | .tInt64, .int i => some (.ofInt i)
  | .tInt64, .str s => (parseInt10 s).map .ofInt
  | .tString, .int i => some (.ofStr (toString i))
  | .tString, .str s => some (.ofStr s)

/-! ## Theorems -/

/-- C1: for every destination field of string, float, bool, signed- or
unsigned-integer kind, scanning a SQL NULL cell through the null-safe scan
adapter (`createNullScanner` then `setFieldFromNullScanner`) sets the field
kind's zero value: `""` for strings, `0.0` for floats, `false` for bools,
and zero for all integer kinds — regardless of the field's previous value. -/
theorem null_scan_sets_zero_value (field : GoValue) (k : Kind) (h : k ≠ .kOther) :
    nullCellThroughAdapter field k = .ok k.zero := by
  cases k <;> simp_all <;> rfl

/-- Witness for C1: a NULL into a string field of previous value `vInt 5`
becomes the empty string. -/
theorem null_scan_sets_zero_value_witness :
    Kind.kString ≠ Kind.kOther ∧
      nullCellThroughAdapter (.vInt 5) .kString = .ok (Kind.zero .kString) :=
  ⟨by decide, null_scan_sets_zero_value (.vInt 5) .kString (by decide)⟩

/-- C7: for every destination field of unsigned-integer kind, a valid
negative value held by the null-safe integer adapter makes
`setFieldFromNullScanner` return the hard error — the value is never wrapped
or truncated into the field. -/
theorem negative_into_unsigned_errors (field : GoValue) (k : Kind) (i : Int)
    (hu : k.isUnsigned = true) (hneg : i < 0) :
    setFieldFromNullScanner field (.nullInt64 { int64 := i, valid := true }) k =
      .error "cannot convert negative value to unsigned type" := by
  cases k <;> simp_all [setFieldFromNullScanner, Kind.isSigned, Kind.isUnsigned]

/-- Witness for C7: `-1` into a `uint64` field errors. -/
theorem negative_into_unsigned_errors_witness :
    Kind.kUint64.isUnsigned = true ∧ (-1 : Int) < 0 ∧
      setFieldFromNullScanner (.vUint 0) (.nullInt64 { int64 := -1, valid := true }) .kUint64 =
        .error "cannot convert negative value to unsigned type" :=
  ⟨by decide, by decide,
    negative_into_unsigned_errors (.vUint 0) .kUint64 (-1) (by decide) (by decide)⟩

/-- C3: `scanRows` leaves the caller's destination slice completely
unmodified whenever it returns an error (column fetch, row scan, field set,
or iteration error), and on success the destination is replaced by the
accumulated sequence, which does not depend on the destination's previous
contents. -/
theorem scanRows_error_frame (rows : Rows) (ty : StructTy)
    (mapping : String → Option Nat) (dest : List StructVal) :
    (∀ e, (scanRows rows ty mapping dest).1 = .error e →
      (scanRows rows ty mapping dest).2 = dest) ∧
    ((scanRows rows ty mapping dest).1 = .ok () →
      scanRowsResults rows ty mapping = .ok (scanRows rows ty mapping dest).2) := by
  unfold scanRows scanRowsResults
  cases h1 : rows.columnsRes with
  | error e => simp
  | ok columns =>
    cases h2 : scanRowsLoop ty mapping columns [] rows.data with
    | error e => simp [h2]
    | ok results =>
      cases h3 : rows.iterErr with
      | none => simp [h2, h3]
      | some e => simp [h2, h3]

/-- Witness for C3: a failing-scan cursor (a bool cell into an int field is
a driver conversion error) leaves a pre-populated destination untouched. -/
theorem scanRows_error_frame_witness :
    (scanRows { columnsRes := .ok ["id"], data := [[.str "oops"]], iterErr := none }
        [.kInt64] (fun c => if c = "id" then some 0 else none) [[.vInt 99]]).1 =
      .error ("failed to scan row: " ++
        "converting driver.Value type string (\"oops\") to a int64") ∧
    (scanRows { columnsRes := .ok ["id"], data := [[.str "oops"]], iterErr := none }
        [.kInt64] (fun c => if c = "id" then some 0 else none) [[.vInt 99]]).2 =
      [[.vInt 99]] :=
  ⟨rfl,
    (scanRows_error_frame { columnsRes := .ok ["id"], data := [[.str "oops"]], iterErr := none }
      [.kInt64] (fun c => if c = "id" then some 0 else none) [[.vInt 99]]).1 _ rfl⟩

/-- C8: `First` on a cursor with zero rows returns `found = false` with no
error and does not modify any field of the caller-owned destination
struct. -/
theorem first_no_row_frame (rows : Rows) (ty : StructTy)
    (mapping : String → Option Nat) (dest : StructVal) (cols : List String)
    (hc : rows.columnsRes = .ok cols) (hd : rows.data = []) :
    First rows ty mapping dest = (.ok false, dest) := by
  unfold First
  rw [hc, hd]

/-- Witness for C8: zero rows leave a pre-populated struct as-is. -/
theorem first_no_row_frame_witness :
    ({ columnsRes := .ok ["id", "name"], data := [], iterErr := none } : Rows).columnsRes =
      .ok ["id", "name"] ∧
    First { columnsRes := .ok ["id", "name"], data := [], iterErr := none }
        [.kInt64, .kString] (fun c => if c = "id" then some 0 else none)
        [.vInt 7, .vString "keep"] =
      (.ok false, [.vInt 7, .vString "keep"]) :=
  ⟨rfl,
    first_no_row_frame { columnsRes := .ok ["id", "name"], data := [], iterErr := none }
      [.kInt64, .kString] (fun c => if c = "id" then some 0 else none)
      [.vInt 7, .vString "keep"] ["id", "name"] rfl rfl⟩

/-- C2: on a single-column cursor, `firstColAny` returns
`(zero of T, found = false)` with no error when there is no row, and
`(zero of T, found = true)` with no error when the first row's single column
is SQL NULL; the two outcomes differ exactly in the `found` flag. -/
theorem firstColAny_found_flag (t : ScalarT) (rows : Rows) (cols : List String)
    (hc : rows.columnsRes = .ok cols) (h1 : cols.length = 1) :
    (rows.data = [] → firstColAny t rows = .ok (t.zeroVal, false)) ∧
    (∀ rest, rows.data = [SqlCell.null] :: rest →
      firstColAny t rows = .ok (t.zeroVal, true)) := by
  constructor
  · intro hd
    unfold firstColAny
    rw [hc, hd]
    simp [h1]
  · intro rest hd
    unfold firstColAny
    rw [hc, hd]
    cases t <;> simp [h1] <;> rfl

/-- Witness for C2: `SELECT NULL` yields `(0, true)` while an empty result
yields `(0, false)`, via the theorem applied at an int64 target. -/
theorem firstColAny_found_flag_witness :
    firstColAny .tInt64 { columnsRes := .ok ["id"], data := [[.null]], iterErr := none } =
      .ok (ScalarT.zeroVal .tInt64, true) ∧
    firstColAny .tInt64 { columnsRes := .ok ["id"], data := [], iterErr := none } =
      .ok (ScalarT.zeroVal .tInt64, false) :=
  ⟨(firstColAny_found_flag .tInt64
      { columnsRes := .ok ["id"], data := [[.null]], iterErr := none } ["id"] rfl rfl).2 [] rfl,
    (firstColAny_found_flag .tInt64
      { columnsRes := .ok ["id"], data := [], iterErr := none } ["id"] rfl rfl).1 rfl⟩

/-- C10: when prepare, execute and the affected-row fetch all succeed, `Exec`
returns no error and its boolean is true exactly when the affected-row count
is positive; zero affected rows yield `(false, nil)`, not an error. -/
theorem exec_true_iff_rows_affected (prep : Except String Unit)
    (run : Except String SqlResult) (r : SqlResult) (n : Int)
    (hp : prep = .ok ()) (hr : run = .ok r) (hn : r.rowsAffectedRes = .ok n) :
    Exec prep run = .ok (decide (n > 0)) ∧
      (Exec prep run = .ok true ↔ 0 < n) := by
  subst hp hr
  simp [Exec, hn]

/-- Witness for C10: a statement affecting zero rows returns `(false, nil)`. -/
theorem exec_true_iff_rows_affected_witness :
    Exec (.ok ()) (.ok { rowsAffectedRes := .ok 0 }) = .ok (decide ((0 : Int) > 0)) ∧
      (Exec (.ok ()) (.ok { rowsAffectedRes := .ok 0 }) = .ok true ↔ (0 : Int) < 0) :=
  exec_true_iff_rows_affected (.ok ()) (.ok { rowsAffectedRes := .ok 0 })
    { rowsAffectedRes := .ok 0 } 0 rfl rfl rfl

/-- C5 counterexample: with key type int64 and a row whose key column is the
textual value `"abc"` (which fails the `fmt.Sscanf` parse), `findMap` does
NOT exclude the row — it inserts it under the zero value of the key type, so
the returned map is `{0: "b"}` rather than the `nil` no-data map the claim
would require. -/
theorem findMap_parse_failure_not_excluded :
    findMapBasic .tInt64 .tString "k" "v"
        { columnsRes := .ok ["k", "v"], data := [[.str "abc", .str "b"]], iterErr := none } =
      .ok (some [(.ofInt 0, .ofStr "b")]) ∧
    findMapBasic .tInt64 .tString "k" "v"
        { columnsRes := .ok ["k", "v"], data := [[.str "abc", .str "b"]], iterErr := none } ≠
      .ok none :=
  ⟨rfl, fun h => Option.noConfusion (Except.ok.inj h)⟩

/-- C5 amended: in key-value map retrieval, when the driver surfaces the key
column as a textual value and parsing it into the requested integer key type
fails, the row is NOT excluded: `keyValid` has already been set, the key
keeps the zero value of K, and the row is inserted into the returned map
under that zero key. -/
theorem findMap_parse_failure_inserts_zero_key (s y : String)
    (h : sscanfInt s = none) :
    findMapBasic .tInt64 .tString "k" "v"
        { columnsRes := .ok ["k", "v"], data := [[.str s, .str y]], iterErr := none } =
      .ok (some [(.ofInt 0, .ofStr y)]) := by
  have hk : lastIdxOf "k" ["k", "v"] = some 0 := rfl
  have hv : lastIdxOf "v" ["k", "v"] = some 1 := rfl
  have hscan : scanRowCells [.pString, .pString] [.str s, .str y] =
      .ok [.nullString { str := s, valid := true },
        .nullString { str := y, valid := true }] := rfl
  simp [findMapBasic, findMapLoop, hk, hv, hscan, findMapKey, findMapValue, mapUpsert, h]

/-- Witness for the amended C5: the unparseable key `"xyz"` lands in the map
under key `0`. -/
theorem findMap_parse_failure_inserts_zero_key_witness :
    sscanfInt "xyz" = none ∧
      findMapBasic .tInt64 .tString "k" "v"
          { columnsRes := .ok ["k", "v"], data := [[.str "xyz", .str "w"]], iterErr := none } =
        .ok (some [(.ofInt 0, .ofStr "w")]) :=
  ⟨rfl, findMap_parse_failure_inserts_zero_key "xyz" "w" rfl⟩

/-- The `ExecByte` row loop once `resultData` is a non-nil slice: it appends
one row-object per remaining row. -/
theorem execByteLoop_some (cols : List String) :
    ∀ (data : List (List SqlCell)) (l : List Json),
      (∀ r ∈ data, r.length = cols.length) →
      execByteLoop cols (some l) data = .ok (some (l ++ data.map (rowToJson cols))) := by
  intro data
  induction data with
  | nil => intro l _; simp [execByteLoop]
  | cons r rest ih =>
    intro l h
    have hr : r.length = cols.length := h r (by simp)
    simp only [execByteLoop, hr, ne_eq, not_true_eq_false, if_false, reduceIte,
      Option.getD_some, List.map_cons]
    rw [ih (l ++ [rowToJson cols r]) (fun x hx => h x (by simp [hx]))]
    simp

/-- The `ExecByte` row loop from the initial nil `resultData`, non-empty
case: it becomes the non-nil list of all row-objects. -/
theorem execByteLoop_none_cons (cols : List String) (r : List SqlCell)
    (rest : List (List SqlCell)) (h : ∀ x ∈ r :: rest, x.length = cols.length) :
    execByteLoop cols none (r :: rest) =
      .ok (some ((r :: rest).map (rowToJson cols))) := by
  have hr : r.length = cols.length := h r (by simp)
  simp only [execByteLoop, hr, ne_eq, not_true_eq_false, if_false, reduceIte,
    Option.getD_none, List.nil_append, List.map_cons]
  rw [execByteLoop_some cols rest [rowToJson cols r] (fun x hx => h x (by simp [hx]))]
  simp

/-- C9 counterexample: `ExecByte` over a result with zero rows and the list
flag outputs the JSON `null` literal (the marshaling of the still-nil Go
slice), not a JSON array — so "in every other case the output is a JSON
array of row-objects, possibly empty" fails at zero rows. -/
theorem execByte_zero_rows_not_array :
    ExecByte { columnsRes := .ok ["id"], data := [], iterErr := none } .HAS_LIST =
      .ok .null ∧
    ∀ l, ExecByte { columnsRes := .ok ["id"], data := [], iterErr := none } .HAS_LIST ≠
      .ok (.arr l) :=
  ⟨rfl, fun _ h => Json.noConfusion (Except.ok.inj h)⟩

/-- C9 amended: when the flag requests a single object and at least one row
exists, the output is exactly the first row serialized alone as a JSON
object; with the list flag and at least one row it is the JSON array of all
row-objects (keyed by raw column names); with zero rows — under either flag —
it is the JSON `null` literal produced by marshaling the nil slice, not an
empty array. -/
theorem execByte_output_shape (rows : Rows) (cols : List String)
    (isList : IS_LIST_TYPE) (hc : rows.columnsRes = .ok cols)
    (hi : rows.iterErr = none) (hlen : ∀ r ∈ rows.data, r.length = cols.length) :
    (isList = .HAS_ONE → ∀ r rest, rows.data = r :: rest →
      ExecByte rows isList = .ok (rowToJson cols r)) ∧
    (isList = .HAS_LIST → ∀ r rest, rows.data = r :: rest →
      ExecByte rows isList = .ok (.arr (rows.data.map (rowToJson cols)))) ∧
    (rows.data = [] → ExecByte rows isList = .ok .null) := by
  refine ⟨?_, ?_, ?_⟩
  · intro hfl r rest hd
    unfold ExecByte
    simp only [hc, hi, hfl]
    rw [hd, execByteLoop_none_cons cols r rest (hd ▸ hlen)]
    simp
  · intro hfl r rest hd
    unfold ExecByte
    simp only [hc, hi, hfl]
    rw [hd, execByteLoop_none_cons cols r rest (hd ▸ hlen)]
    simp [marshalRows]
  · intro hd
    unfold ExecByte
    simp only [hc, hi]
    rw [hd]
    cases isList <;> simp [execByteLoop, marshalRows]

/-- Witness for the amended C9: the single-object flag over a one-row result
emits that row alone as an object. -/
theorem execByte_output_shape_witness :
    ExecByte { columnsRes := .ok ["b", "a"], data := [[.int 1, .str "x"]], iterErr := none }
        .HAS_ONE =
      .ok (rowToJson ["b", "a"] [.int 1, .str "x"]) :=
  (execByte_output_shape
      { columnsRes := .ok ["b", "a"], data := [[.int 1, .str "x"]], iterErr := none }
      ["b", "a"] .HAS_ONE rfl rfl (by simp)).1 rfl [.int 1, .str "x"] [] rfl


/-- `rows.Scan` succeeds on a list of (target, cell) pairs when every single
conversion succeeds, and then yields exactly the forced scanners. -/
theorem mapM_scan_ok (l : List (ScanProto × SqlCell))
    (h : ∀ pc ∈ l, ∃ sc, scanProtoCell pc.1 pc.2 = .ok sc) :
    l.mapM (fun pc => scanProtoCell pc.1 pc.2) =
      .ok (l.map (fun pc => scanForce pc.1 pc.2)) := by
  induction l with
  | nil => rfl
  | cons x xs ih =>
    obtain ⟨sc, hsc⟩ := h x (by simp)
    rw [List.mapM_cons, hsc, ih (fun pc hpc => h pc (by simp [hpc]))]
    simp [scanForce, hsc]
    rfl

/-- `scanRowCells` under a length match and all-conversions-succeed
hypothesis. -/
theorem scanRowCells_ok (protos : List ScanProto) (row : List SqlCell)
    (hlen : row.length = protos.length)
    (h : ∀ pc ∈ protos.zip row, ∃ sc, scanProtoCell pc.1 pc.2 = .ok sc) :
    scanRowCells protos row = .ok ((protos.zip row).map (fun pc => scanForce pc.1 pc.2)) := by
  unfold scanRowCells
  rw [if_neg (by simp [hlen])]
  exact mapM_scan_ok _ h

/-- One `findArray` accumulator step equals appending the cell's
contribution: nothing for NULL, the element value otherwise. -/
theorem findArray_acc_step (t : ScalarT) (c : SqlCell) (acc : List TVal)
    (h : cellScanOk t c = true) :
    findArrayAppend t (scanForce t.proto c) acc = acc ++ (arrayCellVal t c).toList := by
  cases t with
  | tInt64 =>
    cases c with
    | null =>
      simp [findArrayAppend, scanForce, scanProtoCell, ScalarT.proto, Except.map,
        NullInt64.scanCell, arrayCellVal]
    | int i =>
      simp [findArrayAppend, scanForce, scanProtoCell, ScalarT.proto, Except.map,
        NullInt64.scanCell, arrayCellVal]
    | str s =>
      cases hp : parseInt10 s with
      | some v =>
        simp [findArrayAppend, scanForce, scanProtoCell, ScalarT.proto, Except.map,
          NullInt64.scanCell, arrayCellVal, hp]
      | none =>
        simp_all [cellScanOk, scanProtoCell, ScalarT.proto, Except.map,
          NullInt64.scanCell, hp]
  | tString =>
    cases c with
    | null =>
      simp [findArrayAppend, scanForce, scanProtoCell, ScalarT.proto,
        NullString.scanCell, arrayCellVal]
    | int i =>
      simp [findArrayAppend, scanForce, scanProtoCell, ScalarT.proto,
        NullString.scanCell, arrayCellVal]
    | str s =>
      simp [findArrayAppend, scanForce, scanProtoCell, ScalarT.proto,
        NullString.scanCell, arrayCellVal]

/-- The `findArray` row loop accumulates exactly the non-NULL values of the
named column, in row order. -/
theorem findArrayLoop_eq (t : ScalarT) (n i : Nat) (hi : i < n) :
    ∀ (data : List (List SqlCell)) (acc : List TVal),
      (∀ r ∈ data, r.length = n ∧ cellScanOk t (r.getD i .null) = true) →
      findArrayLoop t (findArrayProtos t n i) i acc data =
        .ok (acc ++ data.filterMap (fun r => arrayCellVal t (r.getD i .null))) := by
  intro data
  induction data with
  | nil => intro acc _; simp [findArrayLoop]
  | cons r rest ih =>
    intro acc h
    obtain ⟨hr, hok⟩ := h r (by simp)
    have hplen : (findArrayProtos t n i).length = n := by simp [findArrayProtos]
    have hir : i < r.length := by omega
    have hra : r.getD i .null = r[i] := List.getD_eq_getElem r .null hir
    have hzip : ∀ pc ∈ (findArrayProtos t n i).zip r, ∃ sc, scanProtoCell pc.1 pc.2 = .ok sc := by
      intro pc hpc
      rw [List.mem_iff_getElem] at hpc
      obtain ⟨j, hj, hpc⟩ := hpc
      have hjn : j < n := by
        rw [List.length_zip, hplen, hr] at hj
        omega
      rw [List.getElem_zip] at hpc
      subst hpc
      simp only [findArrayProtos, List.getElem_map, List.getElem_range]
      by_cases hji : j = i
      · subst hji
        simp only [if_pos rfl]
        rw [hra] at hok
        unfold cellScanOk at hok
        cases hsc : scanProtoCell t.proto (r[j]) with
        | ok sc => exact ⟨sc, hsc⟩
        | error e => rw [hsc] at hok; simp at hok
      · simp only [if_neg hji]
        exact ⟨_, rfl⟩
    have hscan := scanRowCells_ok (findArrayProtos t n i) r (by rw [hr, hplen]) hzip
    have hlen2 : (((findArrayProtos t n i).zip r).map (fun pc => scanForce pc.1 pc.2)).length = n := by
      simp [hplen, hr]
    have hgd : (((findArrayProtos t n i).zip r).map (fun pc => scanForce pc.1 pc.2)).getD i
        (.nullString { str := "", valid := false }) = scanForce t.proto (r.getD i .null) := by
      rw [List.getD_eq_getElem _ _ (by omega)]
      simp only [List.getElem_map, List.getElem_zip, findArrayProtos, List.getElem_range,
        eq_self_iff_true, if_true]
      rw [hra]
    simp only [findArrayLoop, hscan]
    rw [hgd, findArray_acc_step t _ acc hok, ih _ (fun x hx => h x (by simp [hx]))]
    simp only [List.filterMap_cons]
    cases hv : arrayCellVal t (r.getD i SqlCell.null) <;> simp

/-- C6: `findArray` silently drops rows whose named column is SQL NULL
(never converting them to the zero value of T), and when the resulting
sequence is empty — zero rows, or only NULLs in that column — it returns the
explicit no-data marker (the Go `nil` slice, modelled `none`), which is
observably distinct from every present sequence, in particular from
`[0]` or `[""]`. -/
theorem findArray_drops_nulls (t : ScalarT) (fieldName : String) (cols : List String)
    (rows : Rows) (i : Nat)
    (hc : rows.columnsRes = .ok cols)
    (hf : cols.findIdx? (· == fieldName) = some i)
    (hie : rows.iterErr = none)
    (hrows : ∀ r ∈ rows.data, r.length = cols.length ∧ cellScanOk t (r.getD i .null) = true) :
    findArray t fieldName rows =
      .ok (if rows.data.filterMap (fun r => arrayCellVal t (r.getD i .null)) = []
        then none
        else some (rows.data.filterMap (fun r => arrayCellVal t (r.getD i .null)))) ∧
    (rows.data.filterMap (fun r => arrayCellVal t (r.getD i .null)) = [] →
      ∀ l, findArray t fieldName rows ≠ .ok (some l)) := by
  have hi : i < cols.length := (List.findIdx?_eq_some_iff_findIdx_eq.mp hf).1
  have hmain : findArray t fieldName rows =
      .ok (if rows.data.filterMap (fun r => arrayCellVal t (r.getD i .null)) = []
        then none
        else some (rows.data.filterMap (fun r => arrayCellVal t (r.getD i .null)))) := by
    unfold findArray
    simp only [hc, hf]
    rw [findArrayLoop_eq t cols.length i hi rows.data [] hrows]
    simp only [hie, List.nil_append]
    by_cases he : rows.data.filterMap (fun r => arrayCellVal t (r.getD i SqlCell.null)) = []
    · rw [if_pos he, if_pos he]
    · rw [if_neg he, if_neg he]
  refine ⟨hmain, fun hemp l hcontra => ?_⟩
  rw [hmain, if_pos hemp] at hcontra
  exact Option.noConfusion (Except.ok.inj hcontra)

/-- Witness for C6: a mixed NULL/value column keeps only the value; an
all-NULL column yields the `nil` marker, not `[0]`. -/
theorem findArray_drops_nulls_witness :
    (∀ r ∈ [[SqlCell.str "x", SqlCell.null], [SqlCell.null, SqlCell.int 5]],
      r.length = 2 ∧ cellScanOk .tInt64 (r.getD 1 .null) = true) ∧
    findArray .tInt64 "c"
        { columnsRes := .ok ["a", "c"],
          data := [[.str "x", .null], [.null, .int 5]], iterErr := none } =
      .ok (some [.ofInt 5]) ∧
    findArray .tInt64 "c"
        { columnsRes := .ok ["a", "c"], data := [[.str "x", .null]], iterErr := none } =
      .ok none :=
  ⟨by decide,
    (findArray_drops_nulls .tInt64 "c" ["a", "c"]
        { columnsRes := .ok ["a", "c"],
          data := [[.str "x", .null], [.null, .int 5]], iterErr := none } 1
        rfl rfl rfl (by decide)).1.trans rfl,
    (findArray_drops_nulls .tInt64 "c" ["a", "c"]
        { columnsRes := .ok ["a", "c"], data := [[.str "x", .null]], iterErr := none } 1
        rfl rfl rfl (by decide)).1.trans rfl⟩


/-- Whether one `FindMultipleProc` loop iteration succeeds, and its result,
do not depend on the loop index (the index only appears in error text). -/
theorem processResultSet_ok_irrel {i j : Nat} {d : Dest} {s : Rows} {d' : Dest}
    (h : processResultSet i d s = .ok d') : processResultSet j d s = .ok d' := by
  cases d with
  | slice ty mapping vals =>
    simp only [processResultSet] at h ⊢
    cases hsr : scanRows s ty mapping vals with
    | mk fst snd =>
      rw [hsr] at h
      cases fst with
      | error e => simp at h
      | ok u => exact h
  | single ty mapping val => exact h

/-- The dispatcher loop with at least as many destinations as remaining
result sets, all of which process cleanly: it succeeds and the destinations
beyond the consumed prefix keep their input values. -/
theorem fmpGo_ok_of_sets_le (N : Nat) :
    ∀ (rest : List Rows) (idx : Nat) (dests : List Dest) (cur : Rows),
      rest.length + 1 ≤ dests.length →
      List.Forall₂ processOk (dests.take (rest.length + 1)) (cur :: rest) →
      (fmpGo N idx dests cur rest).1 = .ok () ∧
      (fmpGo N idx dests cur rest).2.drop (rest.length + 1) = dests.drop (rest.length + 1) := by
  intro rest
  induction rest with
  | nil =>
    intro idx dests cur hlen hall
    cases dests with
    | nil => simp at hlen
    | cons d ds =>
      rw [List.take_succ_cons] at hall
      cases hall with
      | cons hok _ =>
        obtain ⟨d', hd'⟩ := hok
        have hd'' := processResultSet_ok_irrel (j := idx) hd'
        refine ⟨?_, ?_⟩ <;> simp [fmpGo, hd'']
  | cons r rs ih =>
    intro idx dests cur hlen hall
    cases dests with
    | nil => simp at hlen
    | cons d ds =>
      have hlen' : rs.length + 1 ≤ ds.length := by simp at hlen; omega
      rw [List.take_succ_cons] at hall
      cases hall with
      | cons hok hall' =>
        obtain ⟨d', hd'⟩ := hok
        have hd'' := processResultSet_ok_irrel (j := idx) hd'
        have hih := ih (idx + 1) ds r hlen' hall'
        cases hgo : fmpGo N (idx + 1) ds r rs with
        | mk res ds' =>
          rw [hgo] at hih
          constructor
          · simp only [fmpGo, hd'', hgo]
            exact hih.1
          · simp only [fmpGo, hd'', hgo, List.length_cons, List.drop_succ_cons]
            exact hih.2

/-- The dispatcher loop with more result sets than destinations, the
destinations' sets all processing cleanly: it reports the too-many error
with the original destination count. -/
theorem fmpGo_too_many (N : Nat) :
    ∀ (dests : List Dest) (idx : Nat) (cur : Rows) (rest : List Rows),
      dests.length ≤ rest.length →
      List.Forall₂ processOk dests ((cur :: rest).take dests.length) →
      (fmpGo N idx dests cur rest).1 =
        .error ("too many result sets, expected " ++ toString N) := by
  intro dests
  induction dests with
  | nil => intro idx cur rest _ _; rfl
  | cons d ds ih =>
    intro idx cur rest hlen hall
    cases rest with
    | nil => simp at hlen
    | cons r rs =>
      rw [List.length_cons, List.take_succ_cons] at hall
      cases hall with
      | cons hok hall' =>
        obtain ⟨d', hd'⟩ := hok
        have hd'' := processResultSet_ok_irrel (j := idx) hd'
        have hlen' : ds.length ≤ rs.length := by simp at hlen; omega
        have hih := ih (idx + 1) r rs hlen' hall'
        cases hgo : fmpGo N (idx + 1) ds r rs with
        | mk res ds' =>
          rw [hgo] at hih
          simp only [fmpGo, hd'', hgo]
          exact hih

/-- C4: `FindMultipleProc` with destination list of length N: with more
result sets than destinations (and the first N sets processing cleanly) it
errors with "too many result sets, expected N"; with at most N result sets,
each processing cleanly, it succeeds and the trailing unused destinations
are left untouched — fewer result sets than destinations is never an
error. -/
theorem findMultipleProc_count_asymmetry (dests : List Dest) (sets : List Rows) :
    (∀ (cur : Rows) (rest : List Rows), sets = cur :: rest →
      sets.length ≤ dests.length →
      List.Forall₂ processOk (dests.take sets.length) sets →
      (FindMultipleProc dests sets).1 = .ok () ∧
      (FindMultipleProc dests sets).2.drop sets.length = dests.drop sets.length) ∧
    (dests ≠ [] → dests.length < sets.length →
      List.Forall₂ processOk dests (sets.take dests.length) →
      (FindMultipleProc dests sets).1 =
        .error ("too many result sets, expected " ++ toString dests.length)) := by
  constructor
  · intro cur rest hs hlen hall
    subst hs
    cases dests with
    | nil => simp at hlen
    | cons d ds =>
      simp only [FindMultipleProc, List.length_cons]
      exact fmpGo_ok_of_sets_le _ rest 0 (d :: ds) cur (by simpa using hlen)
        (by simpa using hall)
  · intro hne hlt hall
    cases dests with
    | nil => exact absurd rfl hne
    | cons d ds =>
      cases sets with
      | nil => simp at hlt
      | cons cur rest =>
        simp only [FindMultipleProc, List.length_cons]
        exact fmpGo_too_many _ (d :: ds) 0 cur rest
          (by simp at hlt ⊢; omega) (by simpa using hall)

/-- Witness for C4: two result sets against three destinations succeed
leaving the third untouched; four result sets against three destinations
error with the expected count 3. -/
theorem findMultipleProc_count_asymmetry_witness :
    ((FindMultipleProc [trivialDest, trivialDest, trivialDest] [emptySet, emptySet]).1 =
        .ok () ∧
      (FindMultipleProc [trivialDest, trivialDest, trivialDest] [emptySet, emptySet]).2.drop 2 =
        [trivialDest, trivialDest, trivialDest].drop 2) ∧
    (FindMultipleProc [trivialDest, trivialDest, trivialDest]
        [emptySet, emptySet, emptySet, emptySet]).1 =
      .error "too many result sets, expected 3" := by
  have hok : processOk trivialDest emptySet := ⟨trivialDest, rfl⟩
  constructor
  · exact (findMultipleProc_count_asymmetry [trivialDest, trivialDest, trivialDest]
      [emptySet, emptySet]).1 emptySet [emptySet] rfl (by simp)
      (List.Forall₂.cons hok (List.Forall₂.cons hok List.Forall₂.nil))
  · exact (findMultipleProc_count_asymmetry [trivialDest, trivialDest, trivialDest]
      [emptySet, emptySet, emptySet, emptySet]).2 (by simp) (by simp)
      (List.Forall₂.cons hok (List.Forall₂.cons hok
        (List.Forall₂.cons hok List.Forall₂.nil)))

end Zmysql
